import Mathlib

/-!
Shallow embedding of `src/openstack_s3_transfer.py`.

External collaborators (the Swift source store, the S3 client, the local
filesystem, the logger and the clock) are modelled by explicit scenario
data: per object, a script of the answers the environment gives to each
call the code makes.  The embedded functions return records collecting the
observable effects: files written and removed under the staging root,
network calls issued, sleep durations, log events, and which exit path
(normal return or raised exception) the code took.  The MD5 hash itself is
an external cryptographic primitive and is passed in as a function
parameter `md5 : List Nat → List Char` from file bytes to hex-digest
characters; `calculate_md5` mirrors the source's 4096-byte chunked
streaming of the file into the hash state.
-/

namespace OpenStackS3

/-- Result of one `s3Client.upload_file` invocation, as scripted by the
environment: success, a `ClientError` with code `ExpiredToken`, or any
other `ClientError`. -/
inductive UploadAttemptResult
  | ok
  | expired
  | failed
  deriving DecidableEq

/-- Log events emitted by `transfer_object` and `upload_file_with_retry`,
one constructor per `logger.*` call site in the source (the per-attempt
numbers shown in the upload logs are recorded as the source computes
them). -/
inductive LogEvent
  | creatingMarker
  | downloadedTemp
  | upToDateSkipping
  | changedOverwriting
  | notExistUploading
  | headAccessFailed
  | uploadSucceededOnAttempt (shown : Nat)
  | sessionExpiredWarning
  | uploadAttemptFailed (shown : Nat)
  | uploadFailedTerminal
  deriving DecidableEq

/-- Result of `swiftConnection.get_object` for one object: the object's
bytes, or a raised source-store error. -/
inductive SourceReadResult
  | ok (content : List Nat)
  | readError
  deriving DecidableEq

/-- Result of `s3Client.head_object` for one key: found with the reported
`ETag` string (quoted, as S3 reports it), a `ClientError` with code 404,
or a `ClientError` with any other code. -/
inductive HeadResult
  | found (etag : List Char)
  | notFound
  | otherError
  deriving DecidableEq

/-- Environment script for one object processed by `transfer_object`. -/
structure Scenario where
  source : SourceReadResult
  head : HeadResult
  uploads : List UploadAttemptResult
  deriving DecidableEq

/-- Which exit path `transfer_object` took for an object: one of its three
`return` points, a normal fall-off after upload exhaustion, one of its two
uncaught exceptions, or `indeterminate` when the scripted upload answers
ran out (a model artifact never reached in the theorems below). -/
inductive Outcome
  | markerCreated
  | skippedUpToDate
  | uploaded
  | uploadExhausted
  | raisedSourceReadError
  | raisedHeadError
  | indeterminate
  deriving DecidableEq

/-- Observable effects of `upload_file_with_retry`: the returned value
(`some true` / `some false` for the source's `True` / `False`, `none` when
the script ran out), the number of `upload_file` invocations, the
`time.sleep` durations in order, the number of `refresh_credentials`
calls, and the log events. -/
structure RetryResult where
  uploadSuccess : Option Bool
  uploadCalls : Nat
  sleeps : List Nat
  refreshes : Nat
  logs : List LogEvent
  deriving DecidableEq

/-- Observable effects of `transfer_object` for one object. -/
structure TransferResult where
  outcome : Outcome
  stagedFileLeft : Bool
  downloadCalls : Nat
  zeroBytePutKeys : List (List Char)
  uploadInvoked : Bool
  uploadCalls : Nat
  sleeps : List Nat
  refreshes : Nat
  logs : List LogEvent
  deriving DecidableEq

/-- Observable effects of `main`: staging-directory lifecycle, the
empty-container warning, the per-object results of the submitted workers,
whether the destination was re-listed, and the reported count comparison
(`none` when the run returned before reconciliation). -/
structure MainResult where
  tempDirCreated : Bool
  warnedEmptyContainer : Bool
  results : List TransferResult
  tempDirRemoved : Bool
  s3Relisted : Bool
  countReported : Option Bool
  deriving DecidableEq

/-- Python's `objectName.endswith("/")`. -/
def endsWithSlash (name : List Char) : Bool :=
  name.getLast? == some '/'

/-- Python's `s.strip('"')`: remove every leading and every trailing
quote character. -/
def stripQuotes (s : List Char) : List Char :=
  (((s.dropWhile (fun c => c == '"')).reverse.dropWhile (fun c => c == '"')).reverse)

/-- The chunks produced by `iter(lambda: file.read(4096), b"")` over a
file with the given bytes. -/
def chunks4096 : List Nat → List (List Nat)
  | [] => []
  | b :: bs => ((b :: bs).take 4096) :: chunks4096 ((b :: bs).drop 4096)
termination_by l => l.length
decreasing_by
  simp only [List.length_drop, List.length_cons]
  omega

/-- Embedding of `calculate_md5`: the hash state accumulates the chunks
fed to `hashMD5.update` left to right, and `hexdigest` applies the hash
to the accumulated bytes. -/
def calculate_md5 (md5 : List Nat → List Char) (fileBytes : List Nat) : List Char :=
  md5 ((chunks4096 fileBytes).foldl (fun hashed chunk => hashed ++ chunk) [])

/-- Embedding of the `while attempt < retries` loop of
`upload_file_with_retry`, consuming the scripted answer of each
`upload_file` invocation.  Mirrors the source exactly: success returns
`True`; `ExpiredToken` refreshes credentials and retries without touching
`attempt`; any other `ClientError` increments `attempt`, logs, and sleeps
`2 ** attempt`; when `attempt` reaches `retries` the loop falls through
and returns `False`.  An exhausted script yields `none` (model artifact:
the theorems only use scripts long enough for the loop to return). -/
def uploadLoopAux (retries : Nat) : List UploadAttemptResult → Nat → RetryResult
  | script, attempt =>
    if retries ≤ attempt then
      ⟨some false, 0, [], 0, []⟩
    else
      match script with
      | [] => ⟨none, 0, [], 0, []⟩
      | UploadAttemptResult.ok :: _ =>
        ⟨some true, 1, [], 0, [LogEvent.uploadSucceededOnAttempt (attempt + 1)]⟩
      | UploadAttemptResult.expired :: rest =>
        let r := uploadLoopAux retries rest attempt
        ⟨r.uploadSuccess, r.uploadCalls + 1, r.sleeps, r.refreshes + 1,
          LogEvent.sessionExpiredWarning :: r.logs⟩
      | UploadAttemptResult.failed :: rest =>
        let r := uploadLoopAux retries rest (attempt + 1)
        ⟨r.uploadSuccess, r.uploadCalls + 1, 2 ^ (attempt + 1) :: r.sleeps, r.refreshes,
          LogEvent.uploadAttemptFailed (attempt + 1 + 1) :: r.logs⟩

/-- Embedding of `upload_file_with_retry`: the loop starts at
`attempt = 0`. -/
def upload_file_with_retry (retries : Nat) (script : List UploadAttemptResult) : RetryResult :=
  uploadLoopAux retries script 0

/-- The tail of `transfer_object` once an upload is decided: call
`upload_file_with_retry`, log the terminal error when it returned
`False`, then `os.remove(tempFilePath)` unconditionally. -/
def finishUpload (retries : Nat) (uploads : List UploadAttemptResult)
    (logsBefore : List LogEvent) : TransferResult :=
  let r := upload_file_with_retry retries uploads
  let outcome :=
    match r.uploadSuccess with
    | some true => Outcome.uploaded
    | some false => Outcome.uploadExhausted
    | none => Outcome.indeterminate
  let tailLogs :=
    match r.uploadSuccess with
    | some false => [LogEvent.uploadFailedTerminal]
    | _ => []
  ⟨outcome, false, 1, [], true, r.uploadCalls, r.sleeps, r.refreshes,
    logsBefore ++ r.logs ++ tailLogs⟩

/-- Embedding of `transfer_object` for one object.  Keys ending in `/`
create a zero-byte destination object (`put_object` with no body) and
return without any source download.  Otherwise the object is downloaded
into the staging path (a raised source read error propagates before the
staged file is written), hashed, compared against the destination's
`head_object` answer (`ETag` stripped of quotes; 404 means upload; any
other `ClientError` is logged and re-raised with the staged file still on
disk), and uploaded or skipped; the staged file is removed on the skip
path and after the upload call. -/
def transfer_object (md5 : List Nat → List Char) (retries : Nat)
    (objectName : List Char) (sc : Scenario) : TransferResult :=
  if endsWithSlash objectName then
    ⟨Outcome.markerCreated, false, 0, [objectName], false, 0, [], 0,
      [LogEvent.creatingMarker]⟩
  else
    match sc.source with
    | SourceReadResult.readError =>
      ⟨Outcome.raisedSourceReadError, false, 1, [], false, 0, [], 0, []⟩
    | SourceReadResult.ok content =>
      let localMD5 := calculate_md5 md5 content
      match sc.head with
      | HeadResult.found etag =>
        let s3MD5 := stripQuotes etag
        if localMD5 = s3MD5 then
          ⟨Outcome.skippedUpToDate, false, 1, [], false, 0, [], 0,
            [LogEvent.downloadedTemp, LogEvent.upToDateSkipping]⟩
        else
          finishUpload retries sc.uploads
            [LogEvent.downloadedTemp, LogEvent.changedOverwriting]
      | HeadResult.notFound =>
        finishUpload retries sc.uploads
          [LogEvent.downloadedTemp, LogEvent.notExistUploading]
      | HeadResult.otherError =>
        ⟨Outcome.raisedHeadError, true, 1, [], false, 0, [], 0,
          [LogEvent.downloadedTemp, LogEvent.headAccessFailed]⟩

/-- Embedding of `main` after setup: the staging directory is created,
the source container is listed (the scripted `objects`), and on an empty
listing the function warns and returns early.  Otherwise every object is
submitted to the pool — `executor.submit` discards each future, so every
worker runs to its own terminal result and raised exceptions are
swallowed; workers share no state in this model, so the pool is a map —
then the staging directory is removed, the destination is re-listed
(scripted length `s3CountAfter`), and the count comparison is reported.
`retries` is fixed at 3 as in the source. -/
def main (md5 : List Nat → List Char) (objects : List (List Char × Scenario))
    (s3CountAfter : Nat) : MainResult :=
  if objects.isEmpty then
    ⟨true, true, [], false, false, none⟩
  else
    ⟨true, false, objects.map (fun o => transfer_object md5 3 o.1 o.2),
      true, true, some (objects.length == s3CountAfter)⟩

/-- The quoted `ETag` the destination reports for a key after a
successful non-multipart upload of the given content: the MD5 hex digest
wrapped in quote characters (spec §3, DestinationObject: remote-reported
digest is a quoted hex string).  This models the destination store, an
external collaborator. -/
def etagAfterUpload (md5 : List Nat → List Char) (content : List Nat) : List Char :=
  '"' :: (md5 content ++ ['"'])

/-- The scenario a regular object meets on a second run over an unchanged
source: the same content, and the destination reporting the digest the
first run's upload produced. -/
def secondRunScenario (md5 : List Nat → List Char) (content : List Nat)
    (uploads : List UploadAttemptResult) : Scenario :=
  ⟨SourceReadResult.ok content, HeadResult.found (etagAfterUpload md5 content), uploads⟩

/-- Fixed hash function used by the concrete witness instances below. -/
def md5W : List Nat → List Char := fun _ => ['h']

/-- Concrete regular object key used by the witness instances. -/
def nameW : List Char := ['a']

/-- Concrete directory-marker key used by the witness instances. -/
def dirW : List Char := ['d', '/']

/-- Concrete quoted destination `ETag` used by the witness instances. -/
def etagW : List Char := ['"', 'h', '"']

/-- Concrete always-failing upload script used by the witness
instances. -/
def uploadsW : List UploadAttemptResult :=
  [UploadAttemptResult.failed, UploadAttemptResult.failed, UploadAttemptResult.failed]

/-- Concrete scenario of an absent destination object whose upload always
fails, used by the witness instances. -/
def scFailW : Scenario :=
  ⟨SourceReadResult.ok [1], HeadResult.notFound, uploadsW⟩

/-- Concatenating the 4096-byte chunks of a byte list recovers the list. -/
theorem chunks4096_flatten : ∀ l : List Nat, (chunks4096 l).flatten = l
  | [] => by simp [chunks4096]
  | b :: bs => by
    rw [chunks4096, List.flatten_cons, chunks4096_flatten ((b :: bs).drop 4096)]
    exact List.take_append_drop 4096 (b :: bs)
termination_by l => l.length
decreasing_by
  simp only [List.length_drop, List.length_cons]
  omega

/-- Folding append over a chunk list concatenates the chunks after the
accumulator. -/
theorem foldl_append_flatten (l : List (List Nat)) : ∀ acc : List Nat,
    l.foldl (fun hashed chunk => hashed ++ chunk) acc = acc ++ l.flatten := by
  induction l with
  | nil => intro acc; simp
  | cons c cs ih =>
    intro acc
    rw [List.foldl_cons, ih, List.flatten_cons, List.append_assoc]

/-- The chunked hash of `calculate_md5` equals the hash of the whole
file. -/
theorem calculate_md5_eq (md5 : List Nat → List Char) (l : List Nat) :
    calculate_md5 md5 l = md5 l := by
  rw [calculate_md5, foldl_append_flatten, List.nil_append, chunks4096_flatten]

/-- Dropping with a predicate that fails on the head drops nothing. -/
theorem dropWhile_eq_self_of_head (p : Char → Bool) (l : List Char)
    (h : ∀ c ∈ l.head?, p c = false) : l.dropWhile p = l := by
  cases l with
  | nil => rfl
  | cons a t => simp [List.dropWhile_cons, h a (by simp)]

/-- Stripping the quotes from a quoted digest recovers the digest, when
the digest itself neither starts nor ends with a quote character. -/
theorem stripQuotes_quote (d : List Char) (h1 : d.head? ≠ some '"')
    (h2 : d.getLast? ≠ some '"') :
    stripQuotes ('"' :: (d ++ ['"'])) = d := by
  cases d with
  | nil => rfl
  | cons c0 d' =>
    have hc0 : ((c0 == '"') : Bool) = false := by
      apply beq_eq_false_iff_ne.mpr
      intro he
      exact h1 (by rw [List.head?_cons, he])
    have hrev : List.dropWhile (fun c => c == '"') (c0 :: d').reverse
        = (c0 :: d').reverse := by
      apply dropWhile_eq_self_of_head
      intro c hc
      rw [List.head?_reverse] at hc
      have hlast : (c0 :: d').getLast? = some c := hc
      have hcne : c ≠ '"' := fun he => h2 (he ▸ hlast)
      exact beq_eq_false_iff_ne.mpr hcne
    rw [stripQuotes]
    rw [show ('"' :: ((c0 :: d') ++ ['"'])) = '"' :: (c0 :: (d' ++ ['"'])) from rfl]
    rw [List.dropWhile_cons, if_pos (by simp), List.dropWhile_cons, if_neg (by simp [hc0])]
    rw [show (c0 :: (d' ++ ['"'])) = (c0 :: d') ++ ['"'] from rfl]
    rw [List.reverse_append]
    rw [show ((['"'] : List Char).reverse ++ (c0 :: d').reverse)
        = '"' :: (c0 :: d').reverse from rfl]
    rw [List.dropWhile_cons, if_pos (by simp), hrev, List.reverse_reverse]

/-- When every scripted answer is a non-expiry failure and the script is
long enough, the retry loop returns `False` after consuming exactly the
remaining attempt budget. -/
theorem uploadLoopAux_all_failed (retries : Nat) (script : List UploadAttemptResult) :
    ∀ attempt : Nat,
      (∀ u ∈ script, u = UploadAttemptResult.failed) →
      retries ≤ attempt + script.length →
      (uploadLoopAux retries script attempt).uploadSuccess = some false ∧
      (uploadLoopAux retries script attempt).uploadCalls = retries - attempt := by
  induction script with
  | nil =>
    intro attempt _ hlen
    rw [uploadLoopAux]
    have hle : retries ≤ attempt := by simpa using hlen
    rw [if_pos hle]
    refine ⟨rfl, ?_⟩
    show (0 : Nat) = retries - attempt
    omega
  | cons u rest ih =>
    intro attempt hall hlen
    have hu : u = UploadAttemptResult.failed := hall u (by simp)
    subst hu
    rw [uploadLoopAux]
    by_cases hle : retries ≤ attempt
    · rw [if_pos hle]
      refine ⟨rfl, ?_⟩
      show (0 : Nat) = retries - attempt
      omega
    · rw [if_neg hle]
      have hrest : ∀ v ∈ rest, v = UploadAttemptResult.failed :=
        fun v hv => hall v (by simp [hv])
      have hlen' : retries ≤ (attempt + 1) + rest.length := by
        simp only [List.length_cons] at hlen
        omega
      refine ⟨?_, ?_⟩
      · show (uploadLoopAux retries rest (attempt + 1)).uploadSuccess = some false
        exact (ih (attempt + 1) hrest hlen').1
      · show (uploadLoopAux retries rest (attempt + 1)).uploadCalls + 1 = retries - attempt
        rw [(ih (attempt + 1) hrest hlen').2]
        omega

/-- When the retry loop returned `False`, the caller's tail logs the
terminal upload failure, ends in the exhausted outcome, and still removes
the staged file. -/
theorem finishUpload_exhausted (retries : Nat) (uploads : List UploadAttemptResult)
    (logsBefore : List LogEvent)
    (h : (upload_file_with_retry retries uploads).uploadSuccess = some false) :
    (finishUpload retries uploads logsBefore).outcome = Outcome.uploadExhausted ∧
    LogEvent.uploadFailedTerminal ∈ (finishUpload retries uploads logsBefore).logs ∧
    (finishUpload retries uploads logsBefore).stagedFileLeft = false := by
  simp [finishUpload, h]

/-- A regular object absent from the destination goes down the upload
path of `transfer_object`. -/
theorem transfer_object_notFound_eq (md5 : List Nat → List Char) (retries : Nat)
    (name : List Char) (content : List Nat) (uploads : List UploadAttemptResult)
    (h : endsWithSlash name = false) :
    transfer_object md5 retries name
      ⟨SourceReadResult.ok content, HeadResult.notFound, uploads⟩ =
      finishUpload retries uploads
        [LogEvent.downloadedTemp, LogEvent.notExistUploading] := by
  simp [transfer_object, h]

/-- C1 counterexample: a regular object whose destination metadata probe
fails with a non-404 error exits `transfer_object` with the staged file
still on disk, refuting the claim that no exit path leaves the staged
file. -/
theorem transfer_object_probe_failure_leaves_staged_file :
    (transfer_object md5W 3 nameW
      ⟨SourceReadResult.ok [1], HeadResult.otherError, []⟩).stagedFileLeft = true := rfl

/-- C1 (amended): for a regular object, `transfer_object` leaves the
staged file on disk exactly when the source read succeeded and the
destination metadata probe raised a non-404 error; every other exit path
(success, skip, upload exhaustion, and the source read failure, where the
staged file is never created) leaves no staged file. -/
theorem staged_file_cleanup_characterization (md5 : List Nat → List Char)
    (retries : Nat) (name : List Char) (sc : Scenario)
    (h : endsWithSlash name = false) :
    (transfer_object md5 retries name sc).stagedFileLeft = true ↔
      ((∃ c, sc.source = SourceReadResult.ok c) ∧ sc.head = HeadResult.otherError) := by
  obtain ⟨src, hd, ups⟩ := sc
  cases src with
  | readError => simp [transfer_object, h]
  | ok content =>
    cases hd with
    | found etag =>
      by_cases he : calculate_md5 md5 content = stripQuotes etag
      · simp [transfer_object, h, he, finishUpload]
      · simp [transfer_object, h, he, finishUpload]
    | notFound => simp [transfer_object, h, finishUpload]
    | otherError => simp [transfer_object, h]

/-- Witness for the amended C1 theorem at a concrete probe-failure
scenario. -/
theorem staged_file_cleanup_characterization_witness :
    endsWithSlash nameW = false ∧
    ((transfer_object md5W 3 nameW
        ⟨SourceReadResult.ok [1], HeadResult.otherError, []⟩).stagedFileLeft = true ↔
      ((∃ c, (⟨SourceReadResult.ok [1], HeadResult.otherError,
          ([] : List UploadAttemptResult)⟩ : Scenario).source = SourceReadResult.ok c) ∧
        (⟨SourceReadResult.ok [1], HeadResult.otherError,
          ([] : List UploadAttemptResult)⟩ : Scenario).head = HeadResult.otherError)) :=
  ⟨rfl, staged_file_cleanup_characterization md5W 3 nameW _ rfl⟩

/-- C2 counterexample: a source read failure exits `transfer_object` as a
raised exception with no log line for that key and no recorded outcome,
refuting the claim that every per-object terminal failure is recorded as
Failed and logged. -/
theorem transfer_object_source_failure_unlogged :
    (transfer_object md5W 3 nameW
      ⟨SourceReadResult.readError, HeadResult.notFound, []⟩).logs = [] ∧
    (transfer_object md5W 3 nameW
      ⟨SourceReadResult.readError, HeadResult.notFound, []⟩).outcome =
      Outcome.raisedSourceReadError :=
  ⟨rfl, rfl⟩

/-- C2 (amended): per-object terminal failures do not abort the batch —
every submitted object is processed to its own result, and an upload
exhaustion ends in the exhausted outcome with a logged error — but no
Failed outcome is recorded and the coordinator aggregates no
completion/failure counts: its only aggregate is the comparison of the
source listing length with the destination re-listing length. -/
theorem batch_continues_with_count_only_reconciliation
    (md5 : List Nat → List Char) (objects : List (List Char × Scenario)) (n : Nat)
    (retries : Nat) (name : List Char) (content : List Nat)
    (uploads : List UploadAttemptResult)
    (hne : objects ≠ [])
    (hall : ∀ u ∈ uploads, u = UploadAttemptResult.failed)
    (hlen : retries ≤ uploads.length)
    (hname : endsWithSlash name = false) :
    (main md5 objects n).results =
      objects.map (fun o => transfer_object md5 3 o.1 o.2) ∧
    (main md5 objects n).countReported = some (objects.length == n) ∧
    (transfer_object md5 retries name
      ⟨SourceReadResult.ok content, HeadResult.notFound, uploads⟩).outcome =
      Outcome.uploadExhausted ∧
    LogEvent.uploadFailedTerminal ∈ (transfer_object md5 retries name
      ⟨SourceReadResult.ok content, HeadResult.notFound, uploads⟩).logs := by
  have hemp : objects.isEmpty = false := by
    cases objects with
    | nil => exact absurd rfl hne
    | cons a t => rfl
  have hsucc : (upload_file_with_retry retries uploads).uploadSuccess = some false :=
    (uploadLoopAux_all_failed retries uploads 0 hall (by simpa using hlen)).1
  rw [transfer_object_notFound_eq md5 retries name content uploads hname]
  have hf := finishUpload_exhausted retries uploads
    [LogEvent.downloadedTemp, LogEvent.notExistUploading] hsucc
  exact ⟨by simp [main, hemp], by simp [main, hemp], hf.1, hf.2.1⟩

/-- Witness for the amended C2 theorem on a one-object batch whose upload
always fails. -/
theorem batch_continues_with_count_only_reconciliation_witness :
    (main md5W [(nameW, scFailW)] 1).results =
      [(nameW, scFailW)].map (fun o => transfer_object md5W 3 o.1 o.2) ∧
    (main md5W [(nameW, scFailW)] 1).countReported =
      some ([(nameW, scFailW)].length == 1) ∧
    (transfer_object md5W 3 nameW
      ⟨SourceReadResult.ok [1], HeadResult.notFound, uploadsW⟩).outcome =
      Outcome.uploadExhausted ∧
    LogEvent.uploadFailedTerminal ∈ (transfer_object md5W 3 nameW
      ⟨SourceReadResult.ok [1], HeadResult.notFound, uploadsW⟩).logs :=
  batch_continues_with_count_only_reconciliation md5W [(nameW, scFailW)] 1 3 nameW [1]
    uploadsW (by decide) (by decide) (by decide) rfl

/-- C3: with the object absent from the destination (404) the upload is
performed; with the destination-reported digest (the stripped `ETag`)
equal to the locally computed digest the outcome is the up-to-date skip
and no upload call is issued; with the digests different the upload is
performed. -/
theorem checksum_decision_drives_upload (md5 : List Nat → List Char)
    (retries : Nat) (name : List Char) (content : List Nat) (etag : List Char)
    (uploads : List UploadAttemptResult)
    (hname : endsWithSlash name = false) :
    (transfer_object md5 retries name
      ⟨SourceReadResult.ok content, HeadResult.notFound, uploads⟩).uploadInvoked = true ∧
    (stripQuotes etag = calculate_md5 md5 content →
      (transfer_object md5 retries name
        ⟨SourceReadResult.ok content, HeadResult.found etag, uploads⟩).outcome =
          Outcome.skippedUpToDate ∧
      (transfer_object md5 retries name
        ⟨SourceReadResult.ok content, HeadResult.found etag, uploads⟩).uploadInvoked =
          false) ∧
    (stripQuotes etag ≠ calculate_md5 md5 content →
      (transfer_object md5 retries name
        ⟨SourceReadResult.ok content, HeadResult.found etag, uploads⟩).uploadInvoked =
          true) := by
  refine ⟨?_, ?_, ?_⟩
  · rw [transfer_object_notFound_eq md5 retries name content uploads hname]
    simp [finishUpload]
  · intro he
    simp [transfer_object, hname, he.symm]
  · intro he
    have hne : calculate_md5 md5 content ≠ stripQuotes etag := fun hx => he hx.symm
    simp [transfer_object, hname, hne, finishUpload]

/-- Witness for C3 at a concrete absent key and a concrete matching
digest. -/
theorem checksum_decision_drives_upload_witness :
    (transfer_object md5W 3 nameW
      ⟨SourceReadResult.ok [1], HeadResult.notFound, []⟩).uploadInvoked = true ∧
    (transfer_object md5W 3 nameW
      ⟨SourceReadResult.ok [1], HeadResult.found etagW, []⟩).outcome =
      Outcome.skippedUpToDate :=
  ⟨(checksum_decision_drives_upload md5W 3 nameW [1] etagW [] rfl).1,
   ((checksum_decision_drives_upload md5W 3 nameW [1] etagW [] rfl).2.1 (by decide)).1⟩

/-- C4: an object whose key ends with the path separator performs no
source download, creates a zero-byte destination object at the same key,
and terminates for that key. -/
theorem directory_marker_zero_byte_no_download (md5 : List Nat → List Char)
    (retries : Nat) (name : List Char) (sc : Scenario)
    (h : endsWithSlash name = true) :
    transfer_object md5 retries name sc =
      ⟨Outcome.markerCreated, false, 0, [name], false, 0, [], 0,
        [LogEvent.creatingMarker]⟩ := by
  simp [transfer_object, h]

/-- Witness for C4 at a concrete marker key. -/
theorem directory_marker_zero_byte_no_download_witness :
    endsWithSlash dirW = true ∧
    transfer_object md5W 3 dirW ⟨SourceReadResult.ok [], HeadResult.notFound, []⟩ =
      ⟨Outcome.markerCreated, false, 0, [dirW], false, 0, [], 0,
        [LogEvent.creatingMarker]⟩ :=
  ⟨rfl, directory_marker_zero_byte_no_download md5W 3 dirW _ rfl⟩

/-- C5: with three attempts allowed and an upload failing twice then
succeeding, the retrying uploader returns success after exactly three
upload invocations, having slept exactly twice, 2 then 4 time-units. -/
theorem retry_succeeds_third_attempt_two_backoffs :
    upload_file_with_retry 3
      [UploadAttemptResult.failed, UploadAttemptResult.failed, UploadAttemptResult.ok] =
      ⟨some true, 3, [2, 4], 0,
        [LogEvent.uploadAttemptFailed 2, LogEvent.uploadAttemptFailed 3,
         LogEvent.uploadSucceededOnAttempt 3]⟩ := rfl

/-- C6: with every upload invocation failing with a non-expiry error, the
retrying uploader performs exactly `retries` upload invocations and
returns `False` without raising, and the caller logs the terminal
failure, removes the staged file, and returns normally with the exhausted
outcome. -/
theorem always_failing_upload_exhausts_without_raising (md5 : List Nat → List Char)
    (retries : Nat) (name : List Char) (content : List Nat)
    (uploads : List UploadAttemptResult)
    (hall : ∀ u ∈ uploads, u = UploadAttemptResult.failed)
    (hlen : retries ≤ uploads.length)
    (hname : endsWithSlash name = false) :
    (upload_file_with_retry retries uploads).uploadSuccess = some false ∧
    (upload_file_with_retry retries uploads).uploadCalls = retries ∧
    (transfer_object md5 retries name
      ⟨SourceReadResult.ok content, HeadResult.notFound, uploads⟩).outcome =
      Outcome.uploadExhausted ∧
    LogEvent.uploadFailedTerminal ∈ (transfer_object md5 retries name
      ⟨SourceReadResult.ok content, HeadResult.notFound, uploads⟩).logs ∧
    (transfer_object md5 retries name
      ⟨SourceReadResult.ok content, HeadResult.notFound, uploads⟩).stagedFileLeft =
      false := by
  have h0 := uploadLoopAux_all_failed retries uploads 0 hall (by simpa using hlen)
  have hsucc : (upload_file_with_retry retries uploads).uploadSuccess = some false := h0.1
  have hcalls : (upload_file_with_retry retries uploads).uploadCalls = retries := by
    have h2 := h0.2
    simpa using h2
  rw [transfer_object_notFound_eq md5 retries name content uploads hname]
  have hf := finishUpload_exhausted retries uploads
    [LogEvent.downloadedTemp, LogEvent.notExistUploading] hsucc
  exact ⟨hsucc, hcalls, hf.1, hf.2.1, hf.2.2⟩

/-- Witness for C6 at a concrete three-failure script. -/
theorem always_failing_upload_exhausts_without_raising_witness :
    (upload_file_with_retry 3 uploadsW).uploadSuccess = some false ∧
    (upload_file_with_retry 3 uploadsW).uploadCalls = 3 ∧
    (transfer_object md5W 3 nameW
      ⟨SourceReadResult.ok [1], HeadResult.notFound, uploadsW⟩).outcome =
      Outcome.uploadExhausted ∧
    LogEvent.uploadFailedTerminal ∈ (transfer_object md5W 3 nameW
      ⟨SourceReadResult.ok [1], HeadResult.notFound, uploadsW⟩).logs ∧
    (transfer_object md5W 3 nameW
      ⟨SourceReadResult.ok [1], HeadResult.notFound, uploadsW⟩).stagedFileLeft =
      false :=
  always_failing_upload_exhausts_without_raising md5W 3 nameW [1] uploadsW
    (by decide) (by decide) rfl

/-- C7: an expiry failure at any live attempt refreshes credentials and
retries the same attempt: the run on the remaining script continues with
the attempt counter unchanged, so the returned value, sleeps, and
consumed budget are those of the remaining script, with only the
credential-refresh count, the invocation count, and the warning log
growing by one. -/
theorem expiry_does_not_consume_attempt_budget (retries : Nat)
    (rest : List UploadAttemptResult) (attempt : Nat) (h : attempt < retries) :
    uploadLoopAux retries (UploadAttemptResult.expired :: rest) attempt =
      ⟨(uploadLoopAux retries rest attempt).uploadSuccess,
       (uploadLoopAux retries rest attempt).uploadCalls + 1,
       (uploadLoopAux retries rest attempt).sleeps,
       (uploadLoopAux retries rest attempt).refreshes + 1,
       LogEvent.sessionExpiredWarning :: (uploadLoopAux retries rest attempt).logs⟩ := by
  conv_lhs => rw [uploadLoopAux]
  rw [if_neg (by omega)]

/-- Witness for C7 at a concrete expiry followed by a success. -/
theorem expiry_does_not_consume_attempt_budget_witness :
    uploadLoopAux 3 (UploadAttemptResult.expired :: [UploadAttemptResult.ok]) 0 =
      ⟨(uploadLoopAux 3 [UploadAttemptResult.ok] 0).uploadSuccess,
       (uploadLoopAux 3 [UploadAttemptResult.ok] 0).uploadCalls + 1,
       (uploadLoopAux 3 [UploadAttemptResult.ok] 0).sleeps,
       (uploadLoopAux 3 [UploadAttemptResult.ok] 0).refreshes + 1,
       LogEvent.sessionExpiredWarning :: (uploadLoopAux 3 [UploadAttemptResult.ok] 0).logs⟩ :=
  expiry_does_not_consume_attempt_budget 3 [UploadAttemptResult.ok] 0 (by decide)

/-- C8: on a second run over an unchanged source, with the destination
reporting for each key the digest produced by the first run's upload,
every regular object's result is the up-to-date skip with no upload call
issued (stated for digests that neither start nor end with a quote
character, as MD5 hex digests do). -/
theorem second_run_skips_all_regular_objects (md5 : List Nat → List Char)
    (objects : List (List Char × Scenario)) (n : Nat)
    (hq : ∀ content, (md5 content).head? ≠ some '"' ∧ (md5 content).getLast? ≠ some '"')
    (hobj : ∀ p ∈ objects, endsWithSlash p.1 = false ∧
      ∃ content uploads, p.2 = secondRunScenario md5 content uploads) :
    ∀ r ∈ (main md5 objects n).results,
      r.outcome = Outcome.skippedUpToDate ∧ r.uploadInvoked = false := by
  intro r hr
  cases hemp : objects.isEmpty with
  | true => simp [main, hemp] at hr
  | false =>
    simp only [main, hemp, Bool.false_eq_true, if_false] at hr
    rw [List.mem_map] at hr
    obtain ⟨p, hp, hpr⟩ := hr
    obtain ⟨hslash, content, uploads, hsc⟩ := hobj p hp
    subst hpr
    rw [hsc, secondRunScenario]
    have hstrip := stripQuotes_quote (md5 content) (hq content).1 (hq content).2
    simp [transfer_object, hslash, etagAfterUpload, calculate_md5_eq, hstrip]

/-- Witness for C8 on a concrete one-object second run. -/
theorem second_run_skips_all_regular_objects_witness :
    (transfer_object md5W 3 nameW (secondRunScenario md5W [1] [])).outcome =
      Outcome.skippedUpToDate ∧
    (transfer_object md5W 3 nameW (secondRunScenario md5W [1] [])).uploadInvoked =
      false :=
  second_run_skips_all_regular_objects md5W [(nameW, secondRunScenario md5W [1] [])] 1
    (fun content => ⟨by simp [md5W], by simp [md5W]⟩)
    (fun p hp => by
      rw [List.mem_singleton] at hp
      subst hp
      exact ⟨rfl, [1], [], rfl⟩)
    (transfer_object md5W 3 nameW (secondRunScenario md5W [1] []))
    (by simp [main])

/-- C9: with an empty source listing, `main` creates the staging
directory, logs the warning, and returns early: the staging directory is
never removed, no worker is submitted, the destination is not re-listed,
and no count comparison is reported. -/
theorem empty_listing_warns_and_returns_early (md5 : List Nat → List Char) (n : Nat) :
    main md5 [] n = ⟨true, true, [], false, false, none⟩ := rfl

/-- C10: with three attempts allowed and every upload invocation failing
with a non-expiry error, the retrying uploader sleeps after every failed
attempt, including the final one: three sleeps of 2, 4 and 8 time-units,
the last after the attempt budget is exhausted, before returning
failure. -/
theorem always_failing_upload_sleeps_after_final_attempt :
    upload_file_with_retry 3
      [UploadAttemptResult.failed, UploadAttemptResult.failed,
        UploadAttemptResult.failed] =
      ⟨some false, 3, [2, 4, 8], 0,
        [LogEvent.uploadAttemptFailed 2, LogEvent.uploadAttemptFailed 3,
         LogEvent.uploadAttemptFailed 4]⟩ := rfl

end OpenStackS3
